import Mathlib

/-!
Verification of the sayy-admin-support dashboard core: the chat state
store, the live-channel (WebSocket) reconnection and reconciliation
logic, the transport client failure semantics, and the pagination of the
chat-log list. The definitions below are a shallow embedding of the
current `Support` page component (the variant with unread flags, the
guarded reconnect in `ws.onclose`, and the `chatUpdated` push handler)
together with the HMAC-authenticated `serverActions` transport layer.
-/

namespace SayyAdminSupport

/-- Model of the `Message` interface: `{ sender, content, timestamp }`.
The timestamp (a JS `Date`) is modelled as a natural number (epoch ms). -/
structure Message where
  sender : String
  content : String
  timestamp : Nat
deriving DecidableEq, Repr

/-- Model of the `ChatLog` interface:
`{ _id, clientId, chatTitle, userLogs, hasUnread? }`.
The optional boolean `hasUnread` is modelled as a `Bool` (JS `undefined`
and `false` are both falsy and render identically). -/
structure ChatLog where
  _id : String
  clientId : String
  chatTitle : String
  userLogs : List Message
  hasUnread : Bool
deriving DecidableEq, Repr

/-- Model of the component state relevant to the store: the `useState`
cells `page`, `chatLogs`, `selectedLog`, `loading`, `messageInput` and
`isOnline` of the `Support` component. -/
structure StoreState where
  page : Nat
  chatLogs : List ChatLog
  selectedLog : Option ChatLog
  loading : Bool
  messageInput : String
  isOnline : Bool
deriving DecidableEq, Repr

/-- Model of JavaScript `String.prototype.trim()`: strip leading and
trailing whitespace. (Defined over the character list so that the kernel
can evaluate it; `String.trim` in core does not reduce definitionally.) -/
def jsTrim (s : String) : String :=
  String.mk (((s.data.dropWhile Char.isWhitespace).reverse.dropWhile
    Char.isWhitespace).reverse)

/-! ## Pagination (Conversation View)

Source:
`const totalPages = Math.ceil(chatLogs.length / CHATS_PER_PAGE);`
`const paginatedLogs = chatLogs.slice((page - 1) * CHATS_PER_PAGE, page * CHATS_PER_PAGE);`
-/

/-- Source constant `CHATS_PER_PAGE = 5`. -/
def CHATS_PER_PAGE : Nat := 5

/-- Source: `Math.ceil(chatLogs.length / CHATS_PER_PAGE)` over naturals. -/
def totalPages (n : Nat) : Nat := (n + CHATS_PER_PAGE - 1) / CHATS_PER_PAGE

/-- Source: `chatLogs.slice((page - 1) * CHATS_PER_PAGE, page * CHATS_PER_PAGE)`
for a page number of at least 1 (the component keeps `page >= 1`; see the
pagination-button model below). `slice (a, a+5)` is drop `a` then take 5. -/
def paginatedLogs (logs : List ChatLog) (page : Nat) : List ChatLog :=
  (logs.drop ((page - 1) * CHATS_PER_PAGE)).take CHATS_PER_PAGE

/-- Helper: the first `n` pages of size `CHATS_PER_PAGE`, concatenated in
order, are exactly the first `n * CHATS_PER_PAGE` elements of the list. -/
lemma flatten_pages_take (l : List ChatLog) (n : Nat) :
    ((List.range n).map (fun i => paginatedLogs l (i + 1))).flatten
      = l.take (n * CHATS_PER_PAGE) := by
  induction n with
  | zero => simp
  | succ n ih =>
      rw [List.range_succ, List.map_append, List.flatten_append]
      simp only [List.map_cons, List.map_nil, List.flatten_cons,
        List.flatten_nil, List.append_nil, ih]
      have hpag : paginatedLogs l (n + 1)
          = (l.drop (n * CHATS_PER_PAGE)).take CHATS_PER_PAGE := by
        simp [paginatedLogs]
      rw [hpag, Nat.succ_mul, List.take_add]

/-- Helper: `CHATS_PER_PAGE * totalPages n` is at least `n`
(ceiling division rounds up). -/
lemma le_totalPages_mul (n : Nat) : n ≤ totalPages n * CHATS_PER_PAGE := by
  have h1 := Nat.div_add_mod (n + CHATS_PER_PAGE - 1) CHATS_PER_PAGE
  have h2 : (n + CHATS_PER_PAGE - 1) % CHATS_PER_PAGE < CHATS_PER_PAGE :=
    Nat.mod_lt _ (by simp [CHATS_PER_PAGE])
  simp only [totalPages, CHATS_PER_PAGE] at *
  omega

/-- C9: Pagination slices the ChatLog collection into fixed pages of 5 in
store order without reordering or filtering: with 12 chats, page 1 shows
chats 1 to 5, page 3 shows chats 11 to 12, the total page count is 3
(ceiling of count divided by 5), and the pages concatenated in order give
back exactly the stored list. -/
theorem pagination_fixed_pages (logs : List ChatLog) (h : logs.length = 12) :
    paginatedLogs logs 1 = logs.take 5 ∧
    paginatedLogs logs 3 = logs.drop 10 ∧
    totalPages logs.length = 3 ∧
    ((List.range (totalPages logs.length)).map
      (fun i => paginatedLogs logs (i + 1))).flatten = logs := by
  refine ⟨by simp [paginatedLogs, CHATS_PER_PAGE], ?_, ?_, ?_⟩
  · have hlen : (logs.drop 10).length ≤ 5 := by simp [h]
    simpa [paginatedLogs, CHATS_PER_PAGE] using List.take_of_length_le hlen
  · simp [h, totalPages, CHATS_PER_PAGE]
  · rw [flatten_pages_take]
    exact List.take_of_length_le (le_totalPages_mul logs.length)

/-- Concrete 12-chat store list used to witness the pagination theorem. -/
def logsTwelve : List ChatLog :=
  (List.range 12).map (fun i => ⟨toString i, toString i, toString i, [], false⟩)

/-- Witness for C9: the pagination theorem applied to a concrete list of
12 chats. -/
theorem pagination_fixed_pages_witness :
    logsTwelve.length = 12 ∧
    (paginatedLogs logsTwelve 1 = logsTwelve.take 5 ∧
     paginatedLogs logsTwelve 3 = logsTwelve.drop 10 ∧
     totalPages logsTwelve.length = 3 ∧
     ((List.range (totalPages logsTwelve.length)).map
       (fun i => paginatedLogs logsTwelve (i + 1))).flatten = logsTwelve) :=
  ⟨by decide, pagination_fixed_pages logsTwelve (by decide)⟩

/-! ## Pagination buttons (Previous / Next)

Source:
`<button onClick={() => setPage((p) => Math.max(1, p - 1))} disabled={page === 1}>Previous`
`<button onClick={() => setPage((p) => Math.min(totalPages, p + 1))} disabled={page === totalPages}>Next`
A disabled button emits no click, modelled as the identity branch. -/

/-- Model of one pagination button click event. -/
inductive PageClick where
  | prev
  | next
deriving DecidableEq, Repr

/-- Effect of one click on the page number, given the current total page
count `tp`. A click on a disabled button (Previous at page 1, Next at
page `tp`) leaves the page unchanged; otherwise the source clamps with
`Math.max(1, p - 1)` and `Math.min(totalPages, p + 1)`. -/
def pageStep (tp p : Nat) : PageClick → Nat
  | .prev => if p = 1 then p else max 1 (p - 1)
  | .next => if p = tp then p else min tp (p + 1)

/-- Running a sequence of Previous/Next clicks starting from the initial
page (`useState(1)`). -/
def runClicks (tp : Nat) (clicks : List PageClick) : Nat :=
  clicks.foldl (pageStep tp) 1

/-- Helper: a single click keeps the page inside `[1, tp]`. -/
lemma pageStep_bounds (tp p : Nat) (c : PageClick) (h1 : 1 ≤ p) (h2 : p ≤ tp) :
    1 ≤ pageStep tp p c ∧ pageStep tp p c ≤ tp := by
  cases c <;> simp only [pageStep] <;> split <;> omega

/-- Helper: folding any click sequence from a page inside `[1, tp]` stays
inside `[1, tp]`. -/
lemma foldl_pageStep_bounds (tp : Nat) (clicks : List PageClick) :
    ∀ p, 1 ≤ p → p ≤ tp →
      1 ≤ clicks.foldl (pageStep tp) p ∧ clicks.foldl (pageStep tp) p ≤ tp := by
  induction clicks with
  | nil => intro p h1 h2; simpa using ⟨h1, h2⟩
  | cons c cs ih =>
      intro p h1 h2
      have hstep := pageStep_bounds tp p c h1 h2
      simpa using ih (pageStep tp p c) hstep.1 hstep.2

/-- C10: for every sequence of Previous/Next pagination clicks starting
from page 1, the page number remains within 1 to `totalPages` inclusive
whenever `totalPages` is at least 1: Previous clamps at 1 and Next clamps
at `totalPages`. (With an empty chat collection `totalPages = 0` and the
bound is not asserted.) -/
theorem page_stays_in_range (tp : Nat) (clicks : List PageClick) (h : 1 ≤ tp) :
    1 ≤ runClicks tp clicks ∧ runClicks tp clicks ≤ tp :=
  foldl_pageStep_bounds tp clicks 1 (le_refl 1) h

/-- Witness for C10: the clamping theorem applied at `totalPages = 3` and
a concrete click sequence. -/
theorem page_stays_in_range_witness :
    (1 ≤ 3 ∧
     (1 ≤ runClicks 3 [.next, .next, .next, .next, .prev] ∧
      runClicks 3 [.next, .next, .next, .next, .prev] ≤ 3)) :=
  ⟨by decide, page_stays_in_range 3 [.next, .next, .next, .next, .prev] (by decide)⟩

/-! ## Live Channel Manager (WebSocket connection state)

Source refs: `wsRef`, `reconnectTimeoutRef`, `setIsOnline`, the
`ws.onclose` handler, and the mount-effect cleanup of the current
`Support` component. -/

/-- Source constant `WS_RECONNECT_DELAY = 2000` (milliseconds). -/
def WS_RECONNECT_DELAY : Nat := 2000

/-- Model of the connection-related refs and state of the component:
`wsRef.current` presence, the `isOnline` flag, and
`reconnectTimeoutRef.current` as an optional pending delay in ms. -/
structure ChannelState where
  hasSocket : Bool
  isOnline : Bool
  reconnectTimer : Option Nat
deriving DecidableEq, Repr

/-- Source `ws.onclose` handler:
`setIsOnline(false); wsRef.current = null;`
then
`if (!reconnectTimeoutRef.current && event.code !== 1000 && !event.wasClean) { reconnectTimeoutRef.current = setTimeout(..., WS_RECONNECT_DELAY); }`. -/
def ws_onclose (st : ChannelState) (code : Nat) (wasClean : Bool) : ChannelState :=
  let st1 : ChannelState := { st with isOnline := false, hasSocket := false }
  if st1.reconnectTimer = none ∧ code ≠ 1000 ∧ wasClean = false then
    { st1 with reconnectTimer := some WS_RECONNECT_DELAY }
  else st1

/-- Source mount-effect cleanup (the graceful stop):
`if (reconnectTimeoutRef.current) { clearTimeout(...); reconnectTimeoutRef.current = undefined; }`
`if (wsRef.current) { wsRef.current.close(1000, "Component unmounting"); wsRef.current = null; }`.
Returns the new state and the close code passed to `close`, if any. -/
def channelStop (st : ChannelState) : ChannelState × Option Nat :=
  let st1 : ChannelState := { st with reconnectTimer := none }
  if st1.hasSocket then ({ st1 with hasSocket := false }, some 1000)
  else (st1, none)

/-- C3: after an abnormal (non-graceful) close with no reconnect pending,
exactly one reconnect is scheduled with the fixed 2000 ms delay; if a
reconnect timer is already pending when another abnormal close arrives,
no new timer is scheduled and the pending one is left in place, so at
most one reconnect timer is outstanding. -/
theorem onclose_single_reconnect (st : ChannelState) (code : Nat)
    (wasClean : Bool) (hcode : code ≠ 1000) (hclean : wasClean = false) :
    (st.reconnectTimer = none →
      (ws_onclose st code wasClean).reconnectTimer = some WS_RECONNECT_DELAY) ∧
    (∀ d, st.reconnectTimer = some d →
      (ws_onclose st code wasClean).reconnectTimer = some d) := by
  subst hclean
  constructor
  · intro hnone
    simp [ws_onclose, hnone, hcode]
  · intro d hd
    simp [ws_onclose, hd]

/-- Witness for C3: a first abnormal close (code 1006) schedules the
2000 ms reconnect; a second abnormal close with that timer pending leaves
it untouched. -/
theorem onclose_single_reconnect_witness :
    ((⟨true, true, none⟩ : ChannelState).reconnectTimer = none →
      (ws_onclose ⟨true, true, none⟩ 1006 false).reconnectTimer
        = some WS_RECONNECT_DELAY) ∧
    (∀ d, (⟨true, true, none⟩ : ChannelState).reconnectTimer = some d →
      (ws_onclose ⟨true, true, none⟩ 1006 false).reconnectTimer = some d) :=
  onclose_single_reconnect ⟨true, true, none⟩ 1006 false (by decide) rfl

/-- C4: a graceful stop cancels any pending reconnect timer, closes an
open connection with the explicit normal-closure code 1000, and the close
handler fired by that graceful close never schedules a reconnect. -/
theorem graceful_stop_no_reconnect (st : ChannelState) (wasClean : Bool) :
    (channelStop st).1.reconnectTimer = none ∧
    (channelStop st).2 = (if st.hasSocket then some 1000 else none) ∧
    (ws_onclose (channelStop st).1 1000 wasClean).reconnectTimer = none := by
  cases h : st.hasSocket <;> simp [channelStop, ws_onclose, h]

/-! ## Pushed message reconciliation (`ws.onmessage`)

Source: the `ws.onmessage` handler of the current component. On a frame
with truthy `clientId`, truthy `message` and `type === "chatUpdated"` it
appends to the matching selected log (clearing its unread flag) and to
every matching entry of the list, setting `hasUnread` to
`log.clientId !== selectedLog?.clientId`. -/

/-- Per-entry update of the chat-log list, from
`prev.map((log) => log.clientId === data.clientId ? { ...log, userLogs: [...log.userLogs, newMessage], hasUnread: log.clientId !== selectedLog?.clientId } : log)`.
With no selection, `selectedLog?.clientId` is `undefined` and the strict
inequality against a string is true. -/
def pushLog (cid : String) (msg : Message) (selOpt : Option ChatLog)
    (log : ChatLog) : ChatLog :=
  if log.clientId = cid then
    { log with
      userLogs := log.userLogs ++ [msg],
      hasUnread := match selOpt with
                   | none => true
                   | some sel => log.clientId != sel.clientId }
  else log

/-- The store update performed for a recognized append event: the
`setSelectedLog` functional update (append and clear unread when the
selected log matches) followed by the `setChatLogs` map over `pushLog`. -/
def applyPushedMessage (st : StoreState) (cid : String) (msg : Message) :
    StoreState :=
  { st with
    selectedLog :=
      match st.selectedLog with
      | none => none
      | some prev =>
          if prev.clientId = cid then
            some { prev with
                   userLogs := prev.userLogs ++ [msg]
                   hasUnread := false }
          else some prev,
    chatLogs := st.chatLogs.map (pushLog cid msg st.selectedLog) }

/-- Model of a parsed inbound frame
`{ type, clientId?, message? }` as decoded by `JSON.parse`. -/
structure WsFrame where
  type : String
  clientId : Option String
  message : Option Message
deriving DecidableEq, Repr

/-- Source `ws.onmessage` guard:
`if (data.clientId && data.message && data.type === "chatUpdated") { ... }`.
A missing or empty `clientId` and a missing `message` are falsy, so the
frame is ignored; only the literal tag `"chatUpdated"` dispatches the
append event. -/
def ws_onmessage (st : StoreState) (f : WsFrame) : StoreState :=
  match f.clientId, f.message with
  | some cid, some msg =>
      if cid ≠ "" ∧ f.type = "chatUpdated" then applyPushedMessage st cid msg
      else st
  | _, _ => st

/-- C2: while a chat is the active selection, a pushed append event never
sets the unread flag of the currently selected chat (the selected log
itself ends with `hasUnread = false` when it matches the event, and a
list entry with the selected clientId is never newly flagged), and every
other list entry matching the event clientId gets `hasUnread = true`. -/
theorem pushed_message_unread (st : StoreState) (cid : String) (msg : Message)
    (sel : ChatLog) (h : st.selectedLog = some sel) :
    (applyPushedMessage st cid msg).chatLogs
      = st.chatLogs.map (pushLog cid msg (some sel)) ∧
    (sel.clientId = cid →
      (applyPushedMessage st cid msg).selectedLog
        = some { sel with
                 userLogs := sel.userLogs ++ [msg]
                 hasUnread := false }) ∧
    (∀ log ∈ st.chatLogs, log.clientId = sel.clientId →
      (pushLog cid msg (some sel) log).hasUnread = true →
      log.hasUnread = true) ∧
    (∀ log ∈ st.chatLogs, log.clientId = cid → log.clientId ≠ sel.clientId →
      (pushLog cid msg (some sel) log).hasUnread = true) := by
  refine ⟨by simp [applyPushedMessage, h], ?_, ?_, ?_⟩
  · intro hcid
    simp [applyPushedMessage, h, hcid]
  · intro log _ hsel hun
    by_cases hm : log.clientId = cid
    · exfalso
      rw [pushLog, if_pos hm] at hun
      simp only [hsel, bne_self_eq_false] at hun
      exact Bool.false_ne_true hun
    · rwa [pushLog, if_neg hm] at hun
  · intro log _ hm hne
    rw [pushLog, if_pos hm]
    simpa using hne

/-- Selected chat used in the C2 witness. -/
def selChatW : ChatLog := ⟨"a", "c1", "alpha", [], false⟩

/-- Second, unselected chat used in the C2 witness. -/
def otherChatW : ChatLog := ⟨"b", "c2", "beta", [], false⟩

/-- Store state for the C2 witness: two chats, the first one selected. -/
def stPushW : StoreState :=
  { page := 1, chatLogs := [selChatW, otherChatW],
    selectedLog := some selChatW, loading := false,
    messageInput := "", isOnline := true }

/-- Pushed message used in the C2 witness. -/
def msgPushW : Message := ⟨"user", "hello there", 42⟩

/-- Witness for C2: the unread-flag theorem applied to a concrete state
with chat `c1` selected and a push event for `c2`. -/
theorem pushed_message_unread_witness :
    stPushW.selectedLog = some selChatW ∧
    ((applyPushedMessage stPushW "c2" msgPushW).chatLogs
       = stPushW.chatLogs.map (pushLog "c2" msgPushW (some selChatW)) ∧
     (selChatW.clientId = "c2" →
       (applyPushedMessage stPushW "c2" msgPushW).selectedLog
         = some { selChatW with
                  userLogs := selChatW.userLogs ++ [msgPushW]
                  hasUnread := false }) ∧
     (∀ log ∈ stPushW.chatLogs, log.clientId = selChatW.clientId →
       (pushLog "c2" msgPushW (some selChatW) log).hasUnread = true →
       log.hasUnread = true) ∧
     (∀ log ∈ stPushW.chatLogs, log.clientId = "c2" →
       log.clientId ≠ selChatW.clientId →
       (pushLog "c2" msgPushW (some selChatW) log).hasUnread = true)) :=
  ⟨rfl, pushed_message_unread stPushW "c2" msgPushW selChatW rfl⟩

/-- Store state used for the C5 counterexample and witness: one chat with
clientId `c1` and an empty message history, nothing selected. -/
def stFrameW : StoreState :=
  { page := 1, chatLogs := [⟨"x", "c1", "gamma", [], false⟩],
    selectedLog := none, loading := false,
    messageInput := "", isOnline := true }

/-- Counterexample for C5: a frame tagged `new_message` that carries a
clientId and a message is NOT treated as an append event by the handler:
the state is returned unchanged and the matching ChatLog still has an
empty message history. -/
theorem new_message_frame_ignored :
    ws_onmessage stFrameW ⟨"new_message", some "c1", some ⟨"user", "ping", 7⟩⟩
      = stFrameW ∧
    (ws_onmessage stFrameW
      ⟨"new_message", some "c1", some ⟨"user", "ping", 7⟩⟩).chatLogs.map
        (fun l => l.userLogs) = [[]] := by
  constructor
  · rfl
  · rfl

/-- C5 (amended): the handler dispatches on the single literal tag
`chatUpdated`: a frame with truthy clientId and message tagged
`chatUpdated` is applied as the append event, while an identical frame
tagged `new_message` leaves the store unchanged. -/
theorem onmessage_tag_dispatch (st : StoreState) (c : String) (msg : Message)
    (h : c ≠ "") :
    ws_onmessage st ⟨"chatUpdated", some c, some msg⟩
      = applyPushedMessage st c msg ∧
    ws_onmessage st ⟨"new_message", some c, some msg⟩ = st := by
  constructor
  · simp [ws_onmessage, h]
  · simp [ws_onmessage]

/-- Witness for C5: the dispatch theorem applied at clientId `c1` and a
concrete message. -/
theorem onmessage_tag_dispatch_witness :
    ws_onmessage stFrameW ⟨"chatUpdated", some "c1", some ⟨"user", "ping", 7⟩⟩
      = applyPushedMessage stFrameW "c1" ⟨"user", "ping", 7⟩ ∧
    ws_onmessage stFrameW ⟨"new_message", some "c1", some ⟨"user", "ping", 7⟩⟩
      = stFrameW :=
  onmessage_tag_dispatch stFrameW "c1" ⟨"user", "ping", 7⟩ (by decide)

/-! ## Authoritative snapshot application

Source, send-path refresh:
`setChatLogs(logs || []); const updatedLog = logs.find((log) => log._id === selectedLog._id); setSelectedLog(updatedLog || logs[0] || null);`
Source, mount fetch (selection always `none` there):
`setChatLogs(logs || []); setSelectedLog((logs && logs[0]) || null);` -/

/-- Replacing the full collection with an authoritative snapshot and
re-selecting: the entry whose `_id` matches the previous selection if
present (`logs.find`), else the first entry (`logs[0]`), else none. -/
def applySnapshot (st : StoreState) (logs : List ChatLog) : StoreState :=
  { st with
    chatLogs := logs,
    selectedLog :=
      match st.selectedLog with
      | some sel =>
          match logs.find? (fun l => l._id == sel._id) with
          | some l => some l
          | none => logs.head?
      | none => logs.head? }

/-- A sequence of snapshot applications, in arrival order. -/
def applySnapshots (st : StoreState) (snaps : List (List ChatLog)) : StoreState :=
  snaps.foldl applySnapshot st

/-- Selection rule written from the words of the specification, for
comparison with the code: the entry of the new snapshot whose id matches
the previous selection id if such an entry is present, otherwise the
first entry of the snapshot, otherwise none. -/
def selectionSpec (prevSel : Option ChatLog) (logs : List ChatLog) :
    Option ChatLog :=
  match prevSel with
  | some sel =>
      match logs.find? (fun l => l._id == sel._id) with
      | some l => some l
      | none => logs.head?
  | none => logs.head?

/-- C7: for every sequence of `applySnapshot` calls, the active selection
after each call is given by the specification rule applied to the
selection before that call and the new snapshot, and the collection is
replaced by the snapshot. -/
theorem applySnapshot_selection_rule (st : StoreState)
    (prevSnaps : List (List ChatLog)) (logs : List ChatLog) :
    (applySnapshots st (prevSnaps ++ [logs])).selectedLog
      = selectionSpec (applySnapshots st prevSnaps).selectedLog logs ∧
    (applySnapshots st (prevSnaps ++ [logs])).chatLogs = logs := by
  unfold applySnapshots
  rw [List.foldl_append]
  simp only [List.foldl_cons, List.foldl_nil]
  constructor
  · cases h : (List.foldl applySnapshot st prevSnaps).selectedLog with
    | none => simp [applySnapshot, selectionSpec, h]
    | some sel => cases hf : logs.find? (fun l => l._id == sel._id) <;>
        simp [applySnapshot, selectionSpec, h, hf]
  · rfl

/-! ## Transport client and mount fetch

Source: `getAdminSupportLogs` in the HMAC-authenticated `serverActions`
(throws on network or HTTP failure because axios rejects non-2xx, throws
on a truthy `response.error`, returns `response.result` otherwise, and
returns `null` when the HMAC key is not configured), and the `fetchLogs`
closure of the mount effect that consumes it. -/

/-- Outcome of the single HTTP round trip performed by the transport:
axios either rejects (network failure or non-success status) or resolves
with a response body `{ error?, result }`. -/
inductive HttpOutcome where
  | failure (e : String)
  | success (error : Option String) (result : List ChatLog)
deriving DecidableEq, Repr

/-- The failure cases named by the contract: a rejected request, or a
response carrying a non-empty (truthy) `error` field. -/
def isTransportFailure : HttpOutcome → Bool
  | .failure _ => true
  | .success (some e) _ => e != ""
  | .success none _ => false

/-- Source `getAdminSupportLogs`: returns `null` when `VITE_HMAC_KEY` is
unset; otherwise performs the GET and either propagates the axios
rejection, throws on a truthy `response.error`, or returns
`response.result`. `Except` models throw; the `Option` payload models
the possible `null` return. -/
def getAdminSupportLogs (hmacKey : Option String) (o : HttpOutcome) :
    Except String (Option (List ChatLog)) :=
  match hmacKey with
  | none => .ok none
  | some _ =>
      match o with
      | .failure e => .error e
      | .success err res =>
          match err with
          | some e => if e = "" then .ok (some res) else .error e
          | none => .ok (some res)

/-- Source `fetchLogs` (mount effect), given the settled fetch result and
the abort flag: on success and not aborted,
`setChatLogs(logs || []); setSelectedLog((logs && logs[0]) || null);`
on a thrown error only the logging branch runs; `setLoading(false)` runs
in `finally` when not aborted. -/
def fetchLogs (st : StoreState) (r : Except String (Option (List ChatLog)))
    (aborted : Bool) : StoreState :=
  match r with
  | .error _ => if aborted then st else { st with loading := false }
  | .ok logs =>
      if aborted then st
      else
        { st with
          loading := false
          chatLogs := logs.getD []
          selectedLog := (logs.getD []).head? }

/-- C6: when the fetch fails (network failure, non-success status, or a
response carrying a non-empty error field) `getAdminSupportLogs` throws,
and the consuming `fetchLogs` leaves the ChatLog collection and the
selection exactly as they were: failure is never rendered as an empty
conversation list. -/
theorem fetch_failure_preserves_state (st : StoreState) (key : String)
    (o : HttpOutcome) (aborted : Bool) (h : isTransportFailure o = true) :
    (∃ e, getAdminSupportLogs (some key) o = .error e) ∧
    (fetchLogs st (getAdminSupportLogs (some key) o) aborted).chatLogs
      = st.chatLogs ∧
    (fetchLogs st (getAdminSupportLogs (some key) o) aborted).selectedLog
      = st.selectedLog := by
  obtain ⟨e, he⟩ : ∃ e, getAdminSupportLogs (some key) o = .error e := by
    match o with
    | .failure e => exact ⟨e, rfl⟩
    | .success (some e) res =>
        refine ⟨e, ?_⟩
        have hne : ¬e = "" := by
          simpa [isTransportFailure, bne_iff_ne] using h
        simp [getAdminSupportLogs, hne]
    | .success none res => simp [isTransportFailure] at h
  refine ⟨⟨e, he⟩, ?_, ?_⟩ <;> rw [he] <;> cases aborted <;> simp [fetchLogs]

/-- Store state used in the C6 witness: one loaded chat, selected. -/
def stFetchW : StoreState :=
  { page := 1, chatLogs := [selChatW], selectedLog := some selChatW,
    loading := true, messageInput := "", isOnline := false }

/-- Witness for C6: the failure-preservation theorem applied to a
concrete loaded state and a concrete rejected request. -/
theorem fetch_failure_preserves_state_witness :
    isTransportFailure (.failure "network down") = true ∧
    ((∃ e, getAdminSupportLogs (some "k") (.failure "network down")
        = .error e) ∧
     (fetchLogs stFetchW
        (getAdminSupportLogs (some "k") (.failure "network down"))
        false).chatLogs = stFetchW.chatLogs ∧
     (fetchLogs stFetchW
        (getAdminSupportLogs (some "k") (.failure "network down"))
        false).selectedLog = stFetchW.selectedLog) :=
  ⟨by decide,
   fetch_failure_preserves_state stFetchW "k" (.failure "network down")
     false (by decide)⟩

/-! ## Sending a message (`handleSendMessage`)

Source: guard `if (!selectedLog || !messageInput.trim()) return;`, then
the optimistic append to the selected log and to the matching list
entry, `setMessageInput("")`, the `updateAdminChatLog` POST, and on its
success the refresh `getAdminSupportLogs` applied as an authoritative
snapshot with re-selection by `_id`. -/

/-- A network request issued by the send path. -/
inductive NetCall where
  | append (clientId : String) (msg : Message)
  | fetch
deriving DecidableEq, Repr

/-- How the asynchronous tail of the send behaves: the POST rejects
(caught by the `catch` block, leaving the optimistic state), or it
succeeds and the refresh fetch resolves with a fresh snapshot. -/
inductive SendOutcome where
  | appendFailed
  | ok (logs : List ChatLog)
deriving DecidableEq, Repr

/-- Source `handleSendMessage`, as a function of the pre-call state, the
current clock (`new Date()`), and the outcome of the asynchronous tail.
Returns the resulting state and the network calls issued, in order. -/
def handleSendMessage (st : StoreState) (now : Nat) (outcome : SendOutcome) :
    StoreState × List NetCall :=
  match st.selectedLog with
  | none => (st, [])
  | some sel =>
      if jsTrim st.messageInput = "" then (st, [])
      else
        let msg : Message := ⟨"support", jsTrim st.messageInput, now⟩
        let st1 : StoreState :=
          { st with
            selectedLog := some { sel with userLogs := sel.userLogs ++ [msg] }
            chatLogs := st.chatLogs.map (fun log =>
              if log.clientId = sel.clientId then
                { log with userLogs := log.userLogs ++ [msg] }
              else log)
            messageInput := "" }
        match outcome with
        | .appendFailed => (st1, [.append sel.clientId msg])
        | .ok logs => (applySnapshot st1 logs, [.append sel.clientId msg, .fetch])

/-- C8: sending with no chat selected, or with an input that is empty
after trimming (so the empty string and whitespace-only strings), is a
complete no-op: the state is unchanged and no network call is issued. -/
theorem sendMessage_blank_noop (st : StoreState) (now : Nat)
    (outcome : SendOutcome)
    (h : st.selectedLog = none ∨ jsTrim st.messageInput = "") :
    handleSendMessage st now outcome = (st, []) := by
  cases hsel : st.selectedLog with
  | none => simp [handleSendMessage, hsel]
  | some sel =>
      cases h with
      | inl hnone => exact absurd (hnone ▸ hsel) (by simp)
      | inr htrim => simp [handleSendMessage, hsel, htrim]

/-- Store state used in the C8 witness: a chat is selected but the
compose input holds only spaces. -/
def stBlankW : StoreState :=
  { page := 1, chatLogs := [selChatW], selectedLog := some selChatW,
    loading := false, messageInput := "   ", isOnline := true }

/-- Witness for C8: the no-op theorem applied to the whitespace-only
input state. -/
theorem sendMessage_blank_noop_witness :
    (stBlankW.selectedLog = none ∨ jsTrim stBlankW.messageInput = "") ∧
    handleSendMessage stBlankW 99 (.ok []) = (stBlankW, []) :=
  ⟨Or.inr (by decide),
   sendMessage_blank_noop stBlankW 99 (.ok []) (Or.inr (by decide))⟩

/-- Initial chat `a` of the C1 scenario: empty history, clientId `c1`. -/
def chatA : ChatLog := ⟨"a", "c1", "alpha", [], false⟩

/-- Chat `a` as returned by the post-send authoritative fetch: it carries
the confirmed `hi` message (with the server timestamp `t2`). -/
def chatAConfirmed (t2 : Nat) : ChatLog :=
  ⟨"a", "c1", "alpha", [⟨"support", "hi", t2⟩], false⟩

/-- Pre-send store state of the C1 scenario: snapshot `[chatA]` applied,
chat `a` selected, compose input `hi`. -/
def stSendW : StoreState :=
  { page := 1, chatLogs := [chatA], selectedLog := some chatA,
    loading := false, messageInput := "hi", isOnline := true }

/-- C1: in the scenario where the store holds `[chatA]`, chat `a` is
selected and `sendMessage("hi")` runs to completion (optimistic append,
transport append, then a fresh snapshot that contains the confirmed `hi`
message), the resulting state shows the `hi` message exactly once in
chat `a`: the authoritative snapshot replaces the prior collection, so
the optimistic copy is never duplicated. -/
theorem sendMessage_no_duplicate (now t2 : Nat) :
    ((handleSendMessage stSendW now (.ok [chatAConfirmed t2])).1.chatLogs.map
      (fun l => l.userLogs.countP (fun m => m.content == "hi"))) = [1] ∧
    (handleSendMessage stSendW now (.ok [chatAConfirmed t2])).1.chatLogs
      = [chatAConfirmed t2] ∧
    (handleSendMessage stSendW now (.ok [chatAConfirmed t2])).1.selectedLog
      = some (chatAConfirmed t2) ∧
    (handleSendMessage stSendW now (.ok [chatAConfirmed t2])).2
      = [.append "c1" ⟨"support", "hi", now⟩, .fetch] := by
  exact ⟨rfl, rfl, rfl, rfl⟩

end SayyAdminSupport
